import Mathlib

/-!
Shallow embedding of `soil_sensor_background_worker` (worker.py / main.py).

The worker listens to a Firestore collection of raw NPK sensor readings,
runs each new reading through a calibration model, writes the calibrated
document to a second collection, and marks the source document processed.

Firestore documents are modelled as association lists from field names to
values; the two collections live in a `Store`.  External effects that can
fail at runtime (the model's `predict`, point reads, the two writes, the
ordered query) are modelled through an `Env` record: its boolean flags say
whether the corresponding client call raises, and `predict` is the opaque
calibration model.  Python exceptions are modelled with `Except`, carrying
the store as mutated so far (a write that completed before the exception
stays persisted, as in Firestore).
-/

namespace SoilWorker

abbrev DocId := String

abbrev Field := String

/-- A Firestore field value, as far as this worker inspects values:
numbers (the five channels and `timestamp`), booleans (`processed`),
strings (`sensorId`), and the server-assigned timestamp sentinel
`firestore.SERVER_TIMESTAMP`. -/
inductive Value where
  | num (x : Int)
  | boolV (b : Bool)
  | strV (s : String)
  | serverTimestamp
deriving DecidableEq, Repr

/-- A document: a Python dict, field name to value (keys unique). -/
abbrev DocData := List (Field × Value)

/-- A collection: document ID to document data. -/
abbrev Coll := List (DocId × DocData)

/-- First-match association-list lookup (Python `d.get(k)` / `k in d`). -/
def alistGet {α : Type} : List (String × α) → String → Option α
  | [], _ => none
  | (k, v) :: rest, key => if k = key then some v else alistGet rest key

/-- Python dict merge `\x7b**a, **b\x7d`: keys of `b` override keys of `a`
(worker.py line 132). -/
def dictMerge (a b : DocData) : DocData :=
  a.filter (fun p => (alistGet b p.1).isNone) ++ b

/-- Firestore `document(id).set(v)`: upsert, replacing the document. -/
def setDoc (c : Coll) (id : DocId) (v : DocData) : Coll :=
  (id, v) :: c.filter (fun p => decide (p.1 ≠ id))

/-- Number of entries stored under `id` in a collection. -/
def countKey (c : Coll) (id : DocId) : Nat :=
  (c.filter (fun p => decide (p.1 = id))).length

/-- Firestore `document(id).update(fields)`: partial field merge; raises
NotFound (here: `none`) if the document does not exist. -/
def updateDoc (c : Coll) (id : DocId) (fields : DocData) : Option Coll :=
  match alistGet c id with
  | none => none
  | some d => some (setDoc c id (dictMerge d fields))

/-- The two Firestore collections the worker touches:
`RAW_COLLECTION` and `CALIBRATED_COLLECTION`. -/
structure Store where
  raw : Coll
  calibrated : Coll
deriving DecidableEq, Repr

/-- A Python exception as caught by `process_document`'s handlers
(`except KeyError` and `except Exception`, worker.py lines 153-160). -/
inductive PyErr where
  | keyError (msg : String)
  | exception (msg : String)
deriving DecidableEq, Repr

/-- The external collaborators: the opaque calibration model
(`model.predict`, returning rows of outputs, or raising) and fault flags
for each kind of Firestore client call the worker makes.  A `false` flag
means that call raises at runtime. -/
structure Env where
  predict : List Value → Except PyErr (List (List Value))
  getOk : Bool
  setOk : Bool
  updateOk : Bool
  queryOk : Bool

/-- `required = ["N", "P", "K", "pH", "Conductivity"]` (worker.py line 84). -/
def requiredFields : List Field := ["N", "P", "K", "pH", "Conductivity"]

/-- `prepare_input` (worker.py lines 82-98): raise `KeyError` on the first
required channel missing from the data, else build the one-row feature
vector `[data[N], data[P], data[K], data[pH], data[Conductivity]]`. -/
def prepare_input (data : DocData) : Except PyErr (List Value) :=
  match requiredFields.find? (fun k => (alistGet data k).isNone) with
  | some k => .error (.keyError ("Missing field: " ++ k))
  | none => .ok (requiredFields.filterMap (fun k => alistGet data k))

/-- `float(x)` applied to a model output cell: succeeds on numbers. -/
def asNum : Value → Option Value
  | .num x => some (.num x)
  | _ => none

/-- Row extraction `model.predict(X)[0]` followed by the five positional
accesses `float(calibrated[0]) .. float(calibrated[4])`
(worker.py lines 119-127); `none` models the exception raised when the
output has the wrong shape or non-numeric cells. -/
def calibRow (rows : List (List Value)) : Option (Value × Value × Value × Value × Value) :=
  match rows[0]? with
  | none => none
  | some row =>
    match (row[0]?).bind asNum, (row[1]?).bind asNum, (row[2]?).bind asNum,
          (row[3]?).bind asNum, (row[4]?).bind asNum with
    | some a, some b, some c, some d, some e => some (a, b, c, d, e)
    | _, _, _, _, _ => none

/-- The `calibrated_dict` literal (worker.py lines 122-129): the five
calibrated channels positionally from the model's output row, plus the
server-assigned `calibrated_timestamp`. -/
def calibFields (c0 c1 c2 c3 c4 : Value) : DocData :=
  [("calibrated_N", c0), ("calibrated_P", c1), ("calibrated_K", c2),
   ("calibrated_pH", c3), ("calibrated_Conductivity", c4),
   ("calibrated_timestamp", Value.serverTimestamp)]

/-- The update payload marking the source document processed
(worker.py lines 138-141). -/
def processedFields : DocData :=
  [("processed", Value.boolV true), ("processed_at", Value.serverTimestamp)]

/-- The body of `process_document`'s `try:` block (worker.py lines 103-151).
`Except` errors are the exceptions the `except` clauses catch; the store in
the error payload is the store as mutated so far (a completed `set` stays
written even if the later `update` raises). -/
def process_document_try (env : Env) (st : Store) (doc_id : DocId) (data : DocData) :
    Except (PyErr × Store) (Bool × Store) :=
  if env.getOk = false then .error (.exception "calibrated read failed", st)
  else if (alistGet st.calibrated doc_id).isSome then .ok (false, st)
  else if alistGet data "processed" = some (Value.boolV true) then .ok (false, st)
  else match prepare_input data with
    | .error e => .error (e, st)
    | .ok x =>
      match env.predict x with
      | .error e => .error (e, st)
      | .ok rows =>
        match calibRow rows with
        | none => .error (.exception "model output shape", st)
        | some (c0, c1, c2, c3, c4) =>
          if env.setOk = false then .error (.exception "set failed", st)
          else if env.updateOk = false then
            .error (.exception "update failed",
              { st with calibrated :=
                  setDoc st.calibrated doc_id (dictMerge data (calibFields c0 c1 c2 c3 c4)) })
          else
            match updateDoc st.raw doc_id processedFields with
            | none =>
              .error (.exception "raw document missing",
                { st with calibrated :=
                    setDoc st.calibrated doc_id (dictMerge data (calibFields c0 c1 c2 c3 c4)) })
            | some raw2 =>
              .ok (true,
                { raw := raw2,
                  calibrated :=
                    setDoc st.calibrated doc_id (dictMerge data (calibFields c0 c1 c2 c3 c4)) })

/-- `process_document` (worker.py lines 101-160): the `try` body with both
`except` handlers, which log and return `False`. -/
def process_document (env : Env) (st : Store) (doc_id : DocId) (data : DocData) :
    Bool × Store :=
  match process_document_try env st doc_id data with
  | .ok r => r
  | .error (_, st2) => (false, st2)

/-- The `timestamp` field used by the ordered queries; documents lacking a
comparable `timestamp` are not returned by a Firestore `order_by` query. -/
def tsOf (d : DocData) : Option Int :=
  match alistGet d "timestamp" with
  | some (Value.num t) => some t
  | _ => none

/-- The result of `order_by(timestamp, DESCENDING).limit(1)`: the document
with the maximum `timestamp` among those that have one. -/
def latestDoc (c : Coll) : Option (DocId × DocData) :=
  let cands := c.filterMap (fun p => (tsOf p.2).map (fun t => (p.1, p.2, t)))
  match cands.foldl
      (fun acc x =>
        match acc with
        | none => some x
        | some a => if a.2.2 < x.2.2 then some x else some a)
      none with
  | none => none
  | some a => some (a.1, a.2.1)

/-- `get_latest_document_by_timestamp` (worker.py lines 163-189): the
ordered query, with the `try/except` returning `None` on a query error. -/
def get_latest_document_by_timestamp (env : Env) (st : Store) : Option (DocId × DocData) :=
  if env.queryOk then latestDoc st.raw else none

/-- `get_current_latest_document` (worker.py lines 252-265): identical
query and error handling, used once at startup for the baseline. -/
def get_current_latest_document (env : Env) (st : Store) : Option (DocId × DocData) :=
  if env.queryOk then latestDoc st.raw else none

/-- The reconciler's process-local state: the module globals
`last_processed_doc_id` and `initial_snapshot_received`
(worker.py lines 58-60). -/
structure WorkerState where
  last_processed_doc_id : Option DocId
  initial_snapshot_received : Bool
deriving DecidableEq, Repr

/-- Atomic observable actions of the notification path, instrumented with
whether `processing_lock` is held at that point.  The lock context of each
action is statically visible in the source: the `with processing_lock:`
block spans worker.py lines 211-249, while the initial-snapshot check
(lines 204-208) and the startup baseline write (line 285) are outside it. -/
inductive Event where
  | acquireLock
  | releaseLock
  | queryLatest
  | processCall (id : DocId) (data : DocData)
  | writeInitialSeen (b : Bool) (underLock : Bool)
  | writeLastProcessed (v : Option DocId) (underLock : Bool)
deriving DecidableEq, Repr

/-- `on_snapshot` (worker.py lines 196-249).  Takes the current store and
reconciler state plus the delivered change batch (only logged by the
source, never used for control flow), and returns the new reconciler
state, the new store, and the trace of instrumented events. -/
def on_snapshot (env : Env) (st : Store) (ws : WorkerState) (_changes : List DocId) :
    WorkerState × Store × List Event :=
  if ws.initial_snapshot_received = false then
    ({ ws with initial_snapshot_received := true }, st,
     [Event.writeInitialSeen true false])
  else
    match get_latest_document_by_timestamp env st with
    | none =>
      (ws, st, [Event.acquireLock, Event.queryLatest, Event.releaseLock])
    | some (doc_id, data) =>
      if some doc_id ≠ ws.last_processed_doc_id then
        match process_document env st doc_id data with
        | (true, st2) =>
          ({ ws with last_processed_doc_id := some doc_id }, st2,
           [Event.acquireLock, Event.queryLatest, Event.processCall doc_id data,
            Event.writeLastProcessed (some doc_id) true, Event.releaseLock])
        | (false, st2) =>
          (ws, st2,
           [Event.acquireLock, Event.queryLatest, Event.processCall doc_id data,
            Event.releaseLock])
      else
        (ws, st, [Event.acquireLock, Event.queryLatest, Event.releaseLock])

/-- The baseline-establishment prefix of `start_listener`
(worker.py lines 280-292): query the current latest document before
subscribing and, if present, set `last_processed_doc_id` to its ID.
The write happens outside `processing_lock`. -/
def start_listener_baseline (env : Env) (st : Store) (ws : WorkerState) :
    WorkerState × List Event :=
  match get_current_latest_document env st with
  | some (doc_id, _) =>
    ({ ws with last_processed_doc_id := some doc_id },
     [Event.queryLatest, Event.writeLastProcessed (some doc_id) false])
  | none => (ws, [Event.queryLatest])

/-- The keep-alive loop condition of `start_listener` (worker.py line 310):
`while True:` — it never consults the `running` flag. -/
def listener_loop_continues (_running_flag : Bool) : Bool := true

/-- The module-level lifecycle and reconciler globals together
(worker.py lines 58-60, 321-322): `listener_threads` counts live threads
spawned with `threading.Thread(target=start_listener)`; nothing in the
source ever joins or stops one. -/
structure GlobalState where
  store : Store
  worker : WorkerState
  running : Bool
  listener_threads : Nat
deriving DecidableEq, Repr

/-- `start_worker` (worker.py lines 324-335): no-op when `running`,
otherwise set `running` and spawn a daemon thread running
`start_listener` (modelled as incrementing `listener_threads`; the
spawned thread's work is asynchronous and not performed here). -/
def start_worker (gs : GlobalState) : GlobalState × String :=
  if gs.running then (gs, "Worker already running")
  else ({ gs with running := true, listener_threads := gs.listener_threads + 1 },
        "Worker started")

/-- `stop_worker` (worker.py lines 337-342): clear the `running` flag and
return; no unsubscribe, no join, no other mutation. -/
def stop_worker (gs : GlobalState) : GlobalState × String :=
  ({ gs with running := false }, "Worker stopping")

/-- Event classifiers used by the claims about the notification path. -/
def isQueryEvent : Event → Bool
  | Event.queryLatest => true
  | _ => false

def isProcessCall : Event → Bool
  | Event.processCall _ _ => true
  | _ => false

def isUnlockedStateWrite : Event → Bool
  | Event.writeInitialSeen _ l => !l
  | Event.writeLastProcessed _ l => !l
  | _ => false

def lastWriteUnderLock : Event → Bool
  | Event.writeLastProcessed _ l => l
  | _ => true

def lastWriteOutsideLock : Event → Bool
  | Event.writeLastProcessed _ l => !l
  | _ => true

def initialSeenWriteOutsideLock : Event → Bool
  | Event.writeInitialSeen _ l => !l
  | _ => true

/-- Concrete fixtures used by the witnesses and counterexamples. -/
def envOk : Env :=
  { predict := fun _ => .ok [[Value.num 11, Value.num 5, Value.num 8, Value.num 6, Value.num 310]]
    getOk := true
    setOk := true
    updateOk := true
    queryOk := true }

def rawDoc1 : DocData :=
  [("N", Value.num 10), ("P", Value.num 5), ("K", Value.num 8),
   ("pH", Value.num 6), ("Conductivity", Value.num 300),
   ("timestamp", Value.num 100), ("sensorId", Value.strV "s1")]

def store1 : Store := { raw := [("r1", rawDoc1)], calibrated := [] }

def emptyStore : Store := { raw := [], calibrated := [] }

def wsFresh : WorkerState :=
  { last_processed_doc_id := none, initial_snapshot_received := false }

def wsActive : WorkerState :=
  { last_processed_doc_id := none, initial_snapshot_received := true }

def dataMissingN : DocData := [("P", Value.num 5)]

def gs0 : GlobalState :=
  { store := emptyStore, worker := wsFresh, running := false, listener_threads := 0 }

end SoilWorker

namespace SoilWorker

/-! ### Association-list and store helper lemmas -/

theorem alistGet_append_left {α : Type} (l1 l2 : List (String × α)) (k : String) (v : α)
    (h : alistGet l1 k = some v) : alistGet (l1 ++ l2) k = some v := by
  induction l1 with
  | nil => simp [alistGet] at h
  | cons p t ih =>
    obtain ⟨a, b⟩ := p
    simp only [List.cons_append, alistGet] at h ⊢
    by_cases hak : a = k
    · rw [if_pos hak] at h ⊢; exact h
    · rw [if_neg hak] at h ⊢; exact ih h

theorem alistGet_append_right {α : Type} (l1 l2 : List (String × α)) (k : String)
    (h : alistGet l1 k = none) : alistGet (l1 ++ l2) k = alistGet l2 k := by
  induction l1 with
  | nil => rfl
  | cons p t ih =>
    obtain ⟨a, b⟩ := p
    simp only [List.cons_append, alistGet] at h ⊢
    by_cases hak : a = k
    · rw [if_pos hak] at h; exact absurd h (by simp)
    · rw [if_neg hak] at h ⊢; exact ih h

theorem alistGet_filter_of_drop {α : Type} (l : List (String × α)) (k : String)
    (pred : String × α → Bool) (hall : ∀ v, pred (k, v) = false) :
    alistGet (l.filter pred) k = none := by
  induction l with
  | nil => rfl
  | cons p t ih =>
    obtain ⟨a, b⟩ := p
    rw [List.filter_cons]
    by_cases hak : a = k
    · subst hak
      simp only [hall b, Bool.false_eq_true, if_false]
      exact ih
    · cases hp : pred (a, b)
      · simp only [Bool.false_eq_true, if_false]
        exact ih
      · rw [if_pos rfl]
        simp only [alistGet]
        rw [if_neg hak]
        exact ih

theorem alistGet_filter_of_keep {α : Type} (l : List (String × α)) (k : String)
    (pred : String × α → Bool) (hall : ∀ v, pred (k, v) = true) :
    alistGet (l.filter pred) k = alistGet l k := by
  induction l with
  | nil => rfl
  | cons p t ih =>
    obtain ⟨a, b⟩ := p
    rw [List.filter_cons]
    by_cases hak : a = k
    · subst hak
      rw [if_pos (hall b)]
      simp [alistGet]
    · cases hp : pred (a, b)
      · rw [if_neg (by simp [hp])]
        simp only [alistGet]
        rw [if_neg hak]
        exact ih
      · rw [if_pos rfl]
        simp only [alistGet]
        rw [if_neg hak, if_neg hak]
        exact ih

theorem dictMerge_get (a b : DocData) (k : String) :
    alistGet (dictMerge a b) k =
      match alistGet b k with
      | some v => some v
      | none => alistGet a k := by
  unfold dictMerge
  cases hb : alistGet b k with
  | some v =>
    have h1 : alistGet (a.filter fun p => (alistGet b p.1).isNone) k = none :=
      alistGet_filter_of_drop a k _ (fun v2 => by simp [hb])
    rw [alistGet_append_right _ _ _ h1, hb]
  | none =>
    have h2 : alistGet (a.filter fun p => (alistGet b p.1).isNone) k = alistGet a k :=
      alistGet_filter_of_keep a k _ (fun v2 => by simp [hb])
    cases ha : alistGet a k with
    | some v => rw [alistGet_append_left _ _ _ _ (h2.trans ha)]
    | none => rw [alistGet_append_right _ _ _ (h2.trans ha), hb]

theorem setDoc_get_same (c : Coll) (id : DocId) (v : DocData) :
    alistGet (setDoc c id v) id = some v := by
  unfold setDoc
  simp [alistGet]

theorem filter_ne_filter_eq_nil (c : Coll) (id : DocId) :
    (c.filter (fun p => decide (p.1 ≠ id))).filter (fun p => decide (p.1 = id)) = [] := by
  induction c with
  | nil => rfl
  | cons p t ih =>
    rw [List.filter_cons]
    by_cases h : p.1 = id
    · rw [if_neg (by simp [h])]
      exact ih
    · rw [if_pos (by simp [h]), List.filter_cons, if_neg (by simp [h])]
      exact ih

theorem setDoc_countKey (c : Coll) (id : DocId) (v : DocData) :
    countKey (setDoc c id v) id = 1 := by
  unfold setDoc countKey
  rw [List.filter_cons, if_pos (by simp), filter_ne_filter_eq_nil]
  rfl

/-! ### Characterizations of `process_document` -/

theorem process_success_inv (env : Env) (st : Store) (id : DocId) (data : DocData)
    (h : (process_document env st id data).1 = true) :
    process_document_try env st id data = .ok (true, (process_document env st id data).2) := by
  unfold process_document at h ⊢
  cases hE : process_document_try env st id data with
  | error p =>
    obtain ⟨e, s⟩ := p
    rw [hE] at h
    simp at h
  | ok r =>
    obtain ⟨b, s⟩ := r
    rw [hE] at h
    cases b
    · simp at h
    · rfl

theorem process_success_shape (env : Env) (st : Store) (id : DocId) (data : DocData)
    (st2 : Store) (hE : process_document_try env st id data = .ok (true, st2)) :
    env.getOk = true ∧ env.setOk = true ∧ env.updateOk = true ∧
    alistGet st.calibrated id = none ∧
    ∃ x rows c0 c1 c2 c3 c4 d,
      prepare_input data = .ok x ∧
      env.predict x = .ok rows ∧
      calibRow rows = some (c0, c1, c2, c3, c4) ∧
      alistGet st.raw id = some d ∧
      st2 = { raw := setDoc st.raw id (dictMerge d processedFields),
              calibrated :=
                setDoc st.calibrated id (dictMerge data (calibFields c0 c1 c2 c3 c4)) } := by
  unfold process_document_try at hE
  split at hE
  · simp at hE
  · rename_i hg
    split at hE
    · simp at hE
    · rename_i hc
      split at hE
      · simp at hE
      · rename_i hp
        split at hE
        · simp at hE
        · rename_i x hx
          split at hE
          · simp at hE
          · rename_i rows hrows
            split at hE
            · simp at hE
            · rename_i c0 c1 c2 c3 c4 hcr
              split at hE
              · simp at hE
              · rename_i hs
                split at hE
                · simp at hE
                · rename_i hu
                  split at hE
                  · simp at hE
                  · rename_i raw2 hraw2
                    refine ⟨by simpa using hg, by simpa using hs, by simpa using hu,
                           by simpa [Option.not_isSome_iff_eq_none] using hc,
                           x, rows, c0, c1, c2, c3, c4, ?_⟩
                    unfold updateDoc at hraw2
                    cases hd : alistGet st.raw id with
                    | none => rw [hd] at hraw2; simp at hraw2
                    | some d =>
                      rw [hd] at hraw2
                      simp only [Option.some_inj] at hraw2
                      refine ⟨d, hx, hrows, hcr, rfl, ?_⟩
                      simp only [Except.ok.injEq, Prod.mk.injEq, true_and] at hE
                      rw [← hE, ← hraw2]

end SoilWorker

namespace SoilWorker

/-! ### The claims -/

/-- Claim C1: while `initialSnapshotSeen` is false, the snapshot callback
sets it true and returns without querying the store, calling the Document
Processor, or changing `lastProcessedId`, regardless of the batch; once
it is true, no later batch is discarded by this rule (the callback always
reaches the store query), and the flag stays true. -/
theorem snapshot_initial_discard (env : Env) (st : Store) (ws : WorkerState)
    (changes : List DocId) :
    (ws.initial_snapshot_received = false →
      on_snapshot env st ws changes =
        ({ ws with initial_snapshot_received := true }, st,
         [Event.writeInitialSeen true false])) ∧
    (ws.initial_snapshot_received = true →
      (on_snapshot env st ws changes).1.initial_snapshot_received = true ∧
      (on_snapshot env st ws changes).2.2.any isQueryEvent = true) := by
  constructor
  · intro h
    unfold on_snapshot
    rw [if_pos h]
  · intro h
    unfold on_snapshot
    rw [if_neg (by simp [h])]
    split
    · exact ⟨h, by simp [isQueryEvent]⟩
    · split
      · split
        · exact ⟨by simp [h], by simp [isQueryEvent]⟩
        · exact ⟨h, by simp [isQueryEvent]⟩
      · exact ⟨h, by simp [isQueryEvent]⟩

/-- Witness for C1 at a concrete first batch. -/
theorem snapshot_initial_discard_witness :
    on_snapshot envOk store1 wsFresh ["r1"] =
      ({ wsFresh with initial_snapshot_received := true }, store1,
       [Event.writeInitialSeen true false]) :=
  (snapshot_initial_discard envOk store1 wsFresh ["r1"]).1 rfl

/-- Claim C2: for a post-snapshot batch whose fresh latest-by-timestamp
query returns `(doc_id, data)`: if `doc_id` equals `lastProcessedId`
nothing is done; otherwise the Document Processor is called on
`(doc_id, data)`, the store becomes the Processor's result store, and
`lastProcessedId` is set to `doc_id` exactly when the Processor reports
success and is unchanged on failure. -/
theorem snapshot_reconcile (env : Env) (st : Store) (ws : WorkerState)
    (changes : List DocId) (doc_id : DocId) (data : DocData)
    (hinit : ws.initial_snapshot_received = true)
    (hq : get_latest_document_by_timestamp env st = some (doc_id, data)) :
    (ws.last_processed_doc_id = some doc_id →
      on_snapshot env st ws changes =
        (ws, st, [Event.acquireLock, Event.queryLatest, Event.releaseLock])) ∧
    (ws.last_processed_doc_id ≠ some doc_id →
      Event.processCall doc_id data ∈ (on_snapshot env st ws changes).2.2 ∧
      (on_snapshot env st ws changes).2.1 = (process_document env st doc_id data).2 ∧
      (on_snapshot env st ws changes).1.last_processed_doc_id =
        (if (process_document env st doc_id data).1 = true then some doc_id
         else ws.last_processed_doc_id)) := by
  unfold on_snapshot
  rw [if_neg (by simp [hinit]), hq]
  dsimp only
  constructor
  · intro hlast
    rw [if_neg (by simp [hlast])]
  · intro hlast
    rw [if_pos (Ne.symm hlast)]
    cases hres : process_document env st doc_id data with
    | mk b st2 =>
      cases b
      · simp
      · simp

/-- Witness for C2: a fresh document triggers exactly the processing path. -/
theorem snapshot_reconcile_witness :
    Event.processCall "r1" rawDoc1 ∈ (on_snapshot envOk store1 wsActive []).2.2 ∧
    (on_snapshot envOk store1 wsActive []).2.1 =
      (process_document envOk store1 "r1" rawDoc1).2 ∧
    (on_snapshot envOk store1 wsActive []).1.last_processed_doc_id =
      (if (process_document envOk store1 "r1" rawDoc1).1 = true then some "r1"
       else wsActive.last_processed_doc_id) :=
  (snapshot_reconcile envOk store1 wsActive [] "r1" rawDoc1 rfl rfl).2
    (by simp [wsActive])

/-- Claim C3 counterexample: with data missing every channel, two calls of
the Processor on id `r1` leave zero CalibratedReadings at `r1` (the claim
demands exactly one for every id and data), and the first call already
fails. -/
theorem process_twice_counterexample :
    countKey ((process_document envOk
        (process_document envOk emptyStore "r1" []).2 "r1" []).2).calibrated "r1" = 0 ∧
    (process_document envOk emptyStore "r1" []).1 = false := by
  exact ⟨rfl, rfl⟩

/-- Claim C3 (amended): for every id and data on which the first call
reports success, the two calls in sequence leave exactly one
CalibratedReading stored at the id, and the second call detects the
existing CalibratedReading and returns `false` with the store unchanged
(no write is performed). -/
theorem process_document_idempotent (env : Env) (st : Store) (id : DocId) (data : DocData)
    (h : (process_document env st id data).1 = true) :
    countKey (process_document env st id data).2.calibrated id = 1 ∧
    process_document env (process_document env st id data).2 id data =
      (false, (process_document env st id data).2) := by
  have hE := process_success_inv env st id data h
  obtain ⟨hget, hset, hupd, hcal, x, rows, c0, c1, c2, c3, c4, d, hx, hrows, hcr, hd, hst⟩ :=
    process_success_shape env st id data _ hE
  constructor
  · rw [hst]
    exact setDoc_countKey _ _ _
  · rw [hst]
    unfold process_document process_document_try
    rw [if_neg (by simp [hget]), if_pos (by simp [setDoc_get_same])]

/-- Witness for C3 (amended) on a concrete successful run. -/
theorem process_document_idempotent_witness :
    countKey (process_document envOk store1 "r1" rawDoc1).2.calibrated "r1" = 1 ∧
    process_document envOk (process_document envOk store1 "r1" rawDoc1).2 "r1" rawDoc1 =
      (false, (process_document envOk store1 "r1" rawDoc1).2) :=
  process_document_idempotent envOk store1 "r1" rawDoc1 rfl

/-- Claim C4: a document missing at least one of the five channels is
rejected through the validation-failure path: the Processor returns
`false` and the store is completely unchanged, so no CalibratedReading is
created and the source `processed` flag is never set. -/
theorem process_missing_field (env : Env) (st : Store) (id : DocId) (data : DocData)
    (h : ∃ k ∈ requiredFields, alistGet data k = none) :
    process_document env st id data = (false, st) := by
  have hprep : ∃ e, prepare_input data = .error e := by
    unfold prepare_input
    cases hf : requiredFields.find? (fun k => (alistGet data k).isNone) with
    | none =>
      obtain ⟨k, hk, hnone⟩ := h
      have hs : (requiredFields.find? (fun k => (alistGet data k).isNone)).isSome := by
        rw [List.find?_isSome]
        exact ⟨k, hk, by simp [hnone]⟩
      rw [hf] at hs
      simp at hs
    | some k => exact ⟨_, rfl⟩
  obtain ⟨e, hprep⟩ := hprep
  unfold process_document process_document_try
  by_cases hg : env.getOk = false
  · rw [if_pos hg]
  · rw [if_neg hg]
    by_cases hc : (alistGet st.calibrated id).isSome = true
    · rw [if_pos hc]
    · rw [if_neg hc]
      by_cases hpn : alistGet data "processed" = some (Value.boolV true)
      · rw [if_pos hpn]
      · rw [if_neg hpn, hprep]

/-- Witness for C4 at a document lacking the `N` channel. -/
theorem process_missing_field_witness :
    process_document envOk store1 "r1" dataMissingN = (false, store1) :=
  process_missing_field envOk store1 "r1" dataMissingN
    ⟨"N", by decide, by decide⟩

/-- Claim C5: the Processor propagates no exception: every error raised
inside the try body is converted into a `false` return carrying the store
as mutated so far, and a `true` return implies feature building, model
inference, the destination write and the source processed-flag update all
completed. -/
theorem process_document_no_throw (env : Env) (st : Store) (id : DocId) (data : DocData) :
    (∀ e st2, process_document_try env st id data = .error (e, st2) →
      process_document env st id data = (false, st2)) ∧
    ((process_document env st id data).1 = true →
      (∃ x rows, prepare_input data = .ok x ∧ env.predict x = .ok rows ∧
        (calibRow rows).isSome = true) ∧
      env.setOk = true ∧ env.updateOk = true ∧
      (alistGet (process_document env st id data).2.calibrated id).isSome = true ∧
      ((alistGet (process_document env st id data).2.raw id).bind
        (fun d2 => alistGet d2 "processed")) = some (Value.boolV true)) := by
  constructor
  · intro e st2 hE
    unfold process_document
    rw [hE]
  · intro h
    have hE := process_success_inv env st id data h
    obtain ⟨hget, hset, hupd, hcal, x, rows, c0, c1, c2, c3, c4, d, hx, hrows, hcr, hd, hst⟩ :=
      process_success_shape env st id data _ hE
    refine ⟨⟨x, rows, hx, hrows, by simp [hcr]⟩, hset, hupd, ?_, ?_⟩
    · rw [hst]
      show (alistGet (setDoc st.calibrated id
          (dictMerge data (calibFields c0 c1 c2 c3 c4))) id).isSome = true
      rw [setDoc_get_same]
      rfl
    · rw [hst]
      show (alistGet (setDoc st.raw id (dictMerge d processedFields)) id).bind
          (fun d2 => alistGet d2 "processed") = some (Value.boolV true)
      rw [setDoc_get_same]
      show alistGet (dictMerge d processedFields) "processed" = some (Value.boolV true)
      exact (dictMerge_get d processedFields "processed").trans rfl

/-- Witness for C5 on a concrete successful run. -/
theorem process_document_no_throw_witness :
    (∃ x rows, prepare_input rawDoc1 = .ok x ∧ envOk.predict x = .ok rows ∧
      (calibRow rows).isSome = true) ∧
    envOk.setOk = true ∧ envOk.updateOk = true ∧
    (alistGet (process_document envOk store1 "r1" rawDoc1).2.calibrated "r1").isSome = true ∧
    ((alistGet (process_document envOk store1 "r1" rawDoc1).2.raw "r1").bind
      (fun d2 => alistGet d2 "processed")) = some (Value.boolV true) :=
  (process_document_no_throw envOk store1 "r1" rawDoc1).2 rfl

/-- Claim C6: on success the CalibratedReading stored at the id is the
merge of the calibrated fields over a full copy of the raw fields: the
five calibrated channels positionally mapped from the model's output row,
the server-generated `calibrated_timestamp`, and every raw field whose
name is not one of the calibrated fields copied verbatim. -/
theorem process_success_written_doc (env : Env) (st : Store) (id : DocId) (data : DocData)
    (h : (process_document env st id data).1 = true) :
    ∃ x rows c0 c1 c2 c3 c4,
      prepare_input data = .ok x ∧
      env.predict x = .ok rows ∧
      calibRow rows = some (c0, c1, c2, c3, c4) ∧
      alistGet (process_document env st id data).2.calibrated id =
        some (dictMerge data (calibFields c0 c1 c2 c3 c4)) ∧
      alistGet (dictMerge data (calibFields c0 c1 c2 c3 c4)) "calibrated_N" = some c0 ∧
      alistGet (dictMerge data (calibFields c0 c1 c2 c3 c4)) "calibrated_P" = some c1 ∧
      alistGet (dictMerge data (calibFields c0 c1 c2 c3 c4)) "calibrated_K" = some c2 ∧
      alistGet (dictMerge data (calibFields c0 c1 c2 c3 c4)) "calibrated_pH" = some c3 ∧
      alistGet (dictMerge data (calibFields c0 c1 c2 c3 c4)) "calibrated_Conductivity" = some c4 ∧
      alistGet (dictMerge data (calibFields c0 c1 c2 c3 c4)) "calibrated_timestamp" =
        some Value.serverTimestamp ∧
      ∀ k, alistGet (calibFields c0 c1 c2 c3 c4) k = none →
        alistGet (dictMerge data (calibFields c0 c1 c2 c3 c4)) k = alistGet data k := by
  have hE := process_success_inv env st id data h
  obtain ⟨hget, hset, hupd, hcal, x, rows, c0, c1, c2, c3, c4, d, hx, hrows, hcr, hd, hst⟩ :=
    process_success_shape env st id data _ hE
  refine ⟨x, rows, c0, c1, c2, c3, c4, hx, hrows, hcr, ?_, ?_, ?_, ?_, ?_, ?_, ?_, ?_⟩
  · rw [hst]
    show alistGet (setDoc st.calibrated id (dictMerge data (calibFields c0 c1 c2 c3 c4))) id = _
    exact setDoc_get_same _ _ _
  · exact (dictMerge_get data (calibFields c0 c1 c2 c3 c4) "calibrated_N").trans rfl
  · exact (dictMerge_get data (calibFields c0 c1 c2 c3 c4) "calibrated_P").trans rfl
  · exact (dictMerge_get data (calibFields c0 c1 c2 c3 c4) "calibrated_K").trans rfl
  · exact (dictMerge_get data (calibFields c0 c1 c2 c3 c4) "calibrated_pH").trans rfl
  · exact (dictMerge_get data (calibFields c0 c1 c2 c3 c4) "calibrated_Conductivity").trans rfl
  · exact (dictMerge_get data (calibFields c0 c1 c2 c3 c4) "calibrated_timestamp").trans rfl
  · intro k hk
    rw [dictMerge_get, hk]

/-- Witness for C6 on a concrete successful run. -/
theorem process_success_written_doc_witness :
    ∃ x rows c0 c1 c2 c3 c4,
      prepare_input rawDoc1 = .ok x ∧
      envOk.predict x = .ok rows ∧
      calibRow rows = some (c0, c1, c2, c3, c4) ∧
      alistGet (process_document envOk store1 "r1" rawDoc1).2.calibrated "r1" =
        some (dictMerge rawDoc1 (calibFields c0 c1 c2 c3 c4)) ∧
      alistGet (dictMerge rawDoc1 (calibFields c0 c1 c2 c3 c4)) "calibrated_N" = some c0 ∧
      alistGet (dictMerge rawDoc1 (calibFields c0 c1 c2 c3 c4)) "calibrated_P" = some c1 ∧
      alistGet (dictMerge rawDoc1 (calibFields c0 c1 c2 c3 c4)) "calibrated_K" = some c2 ∧
      alistGet (dictMerge rawDoc1 (calibFields c0 c1 c2 c3 c4)) "calibrated_pH" = some c3 ∧
      alistGet (dictMerge rawDoc1 (calibFields c0 c1 c2 c3 c4)) "calibrated_Conductivity" = some c4 ∧
      alistGet (dictMerge rawDoc1 (calibFields c0 c1 c2 c3 c4)) "calibrated_timestamp" =
        some Value.serverTimestamp ∧
      ∀ k, alistGet (calibFields c0 c1 c2 c3 c4) k = none →
        alistGet (dictMerge rawDoc1 (calibFields c0 c1 c2 c3 c4)) k = alistGet rawDoc1 k :=
  process_success_written_doc envOk store1 "r1" rawDoc1 rfl

/-- Claim C7 counterexample: the very first snapshot callback writes
`initialSnapshotSeen` while the lock is not held (worker.py line 205 runs
before the `with processing_lock:` block at line 211), refuting that the
two state variables are mutated only while holding the lock. -/
theorem state_write_unlocked_counterexample :
    (on_snapshot envOk store1 wsFresh []).2.2.any isUnlockedStateWrite = true := by
  rfl

/-- Claim C7 (amended): within `on_snapshot`, `lastProcessedId` is
written only under the lock while `initialSnapshotSeen` is written only
outside it (in the pre-lock initial-snapshot check); the startup baseline
path writes `lastProcessedId` outside the lock; and the lifecycle
controls write neither variable. -/
theorem state_write_lock_discipline (env : Env) (st : Store) (ws : WorkerState)
    (changes : List DocId) (gs : GlobalState) :
    (on_snapshot env st ws changes).2.2.all lastWriteUnderLock = true ∧
    (on_snapshot env st ws changes).2.2.all initialSeenWriteOutsideLock = true ∧
    (start_listener_baseline env st ws).2.all lastWriteOutsideLock = true ∧
    (stop_worker gs).1.worker = gs.worker ∧
    (start_worker gs).1.worker = gs.worker := by
  refine ⟨?_, ?_, ?_, rfl, ?_⟩
  · unfold on_snapshot
    split
    · rfl
    · split
      · rfl
      · split
        · split <;> rfl
        · rfl
  · unfold on_snapshot
    split
    · rfl
    · split
      · rfl
      · split
        · split <;> rfl
        · rfl
  · unfold start_listener_baseline
    split <;> rfl
  · unfold start_worker
    split <;> rfl

/-- Claim C8: the startup baseline queries the store for the
latest-by-timestamp document and sets `lastProcessedId` to its ID; when
the raw collection is empty the query returns nothing and
`lastProcessedId` is left as it was (unset). -/
theorem baseline_establishment (env : Env) (st : Store) (ws : WorkerState) :
    (∀ id d, get_current_latest_document env st = some (id, d) →
      (start_listener_baseline env st ws).1 =
        { ws with last_processed_doc_id := some id }) ∧
    (st.raw = [] → (start_listener_baseline env st ws).1 = ws) := by
  constructor
  · intro id d hq
    unfold start_listener_baseline
    rw [hq]
  · intro h
    have hq : get_current_latest_document env st = none := by
      unfold get_current_latest_document
      rw [h]
      split <;> rfl
    unfold start_listener_baseline
    rw [hq]

/-- Witness for C8 on a store with one raw document. -/
theorem baseline_establishment_witness :
    (start_listener_baseline envOk store1 wsFresh).1 =
      { wsFresh with last_processed_doc_id := some "r1" } :=
  (baseline_establishment envOk store1 wsFresh).1 "r1" rawDoc1 rfl

/-- Claim C9: `start_worker` is a no-op returning the already-running
message while `running` is set; otherwise it sets `running` immediately,
spawns one additional background listener thread (without waiting on it
and without touching the store or reconciler state) and returns the
started message. -/
theorem start_worker_spec (gs : GlobalState) :
    (gs.running = true → start_worker gs = (gs, "Worker already running")) ∧
    (gs.running = false →
      (start_worker gs).1.running = true ∧
      (start_worker gs).1.listener_threads = gs.listener_threads + 1 ∧
      (start_worker gs).1.worker = gs.worker ∧
      (start_worker gs).1.store = gs.store ∧
      (start_worker gs).2 = "Worker started") := by
  constructor
  · intro h
    unfold start_worker
    rw [if_pos h]
  · intro h
    unfold start_worker
    rw [if_neg (by simp [h])]
    exact ⟨rfl, rfl, rfl, rfl, rfl⟩

/-- Witness for C9 from the stopped state. -/
theorem start_worker_spec_witness :
    (start_worker gs0).1.running = true ∧
    (start_worker gs0).1.listener_threads = gs0.listener_threads + 1 ∧
    (start_worker gs0).1.worker = gs0.worker ∧
    (start_worker gs0).1.store = gs0.store ∧
    (start_worker gs0).2 = "Worker started" :=
  (start_worker_spec gs0).2 rfl

/-- Claim C10: `stop_worker` clears only the `running` flag — thread
count, reconciler state and store are untouched, and the listener loop
condition never consults the flag — so a following `start_worker`
observes `running = false`, reports a fresh start, and spawns an
additional listener thread while the previous one is still counted as
alive. -/
theorem stop_worker_frame (gs : GlobalState) :
    stop_worker gs = ({ gs with running := false }, "Worker stopping") ∧
    (stop_worker gs).1.listener_threads = gs.listener_threads ∧
    (stop_worker gs).1.worker = gs.worker ∧
    (stop_worker gs).1.store = gs.store ∧
    (stop_worker gs).1.running = false ∧
    (start_worker (stop_worker gs).1).1.running = true ∧
    (start_worker (stop_worker gs).1).1.listener_threads = gs.listener_threads + 1 ∧
    (start_worker (stop_worker gs).1).2 = "Worker started" ∧
    (∀ b, listener_loop_continues b = true) :=
  ⟨rfl, rfl, rfl, rfl, rfl, rfl, rfl, rfl, fun _ => rfl⟩

end SoilWorker
